import Mathlib

/-!
Verification of `ubautoiso` (src/ubautoiso/__main__.py) against its
specification.  The repository's own source is the CLI glue module; the
`isomodder` package it drives (fetcher, ISO image, builder) is not part of
the repository sources, so those operations are modelled from the spec where
a claim depends on them, each such definition carrying a doc comment that
says so.
-/

namespace Ubautoiso

/-! ## CLI parameter model (from src/ubautoiso/__main__.py)

`click` invokes the decorated callback with one keyword argument per
declared parameter.  The option decorators on `cli` declare, in order:
`--output`, `--cache-dir`, `--release`, `--no-prompt`, `--no-mbr`,
`--no-efi`, and the positional argument `autoinstall_file`.  The Python
callback is `def cli(output, cache_dir, prompt, autoinstall_file, no_efi,
no_mbr)`. -/

/-- The click parameter names that `cli`'s decorators declare; click passes
each of these as a keyword argument when the command runs. -/
def cliDeclaredParams : List String :=
  ["output", "cache_dir", "release", "no_prompt", "no_mbr", "no_efi", "autoinstall_file"]

/-- The parameter names of the Python callback
`def cli(output, cache_dir, prompt, autoinstall_file, no_efi, no_mbr)`.
All are plain positional-or-keyword parameters without defaults. -/
def cliCallbackParams : List String :=
  ["output", "cache_dir", "prompt", "autoinstall_file", "no_efi", "no_mbr"]

/-- Python call semantics for a callback whose parameters all lack defaults
and that has no `**kwargs`: a pure keyword-argument call succeeds exactly
when the passed keyword set equals the parameter set (an unexpected keyword
or a missing required parameter raises `TypeError`). -/
def pythonKwCallOk (passed sig : List String) : Bool :=
  passed.all sig.contains && sig.all passed.contains

/-- The `UbuntuServerIsoFetcher(working_dir=cache_dir, release="20.04")`
constructor call in the body of `cli`: the release argument is the string
literal `"20.04"`, independent of any CLI input. -/
structure FetcherConfig where
  workingDir : String
  release : String
deriving DecidableEq, Repr

/-- The fetcher configuration `cli` builds (line
`fetcher = UbuntuServerIsoFetcher(working_dir=cache_dir, release="20.04")`). -/
def cliFetcherConfig (cacheDir : String) : FetcherConfig :=
  { workingDir := cacheDir, release := "20.04" }

/-! ## Top-level exception handling (from `main` in src/ubautoiso/__main__.py)

`main` wraps `cli()` in `try/except SystemExit: pass /
except IsoModderFatalException as exc: <print fatal message> /
except BaseException: <print unexpected-bug report>`.
A Python `except C` clause catches an exception `e` exactly when `C` is in
the method-resolution-order (ancestor class list) of `type(e)`; clauses are
tried in order.  We model an exception by the list of its class's ancestor
names. -/

/-- What `main` presents to the user for a caught exception. -/
inductive Presentation where
  /-- The `except SystemExit: pass` clause: nothing is printed. -/
  | discarded : Presentation
  /-- The `except IsoModderFatalException` clause: the operational failure
  message (`:cross_mark: ... {exc} ...`). -/
  | fatalMessage : Presentation
  /-- The `except BaseException` clause: the unanticipated-bug report
  (`Something totally unexpected has happened` plus the traceback). -/
  | bugReport : Presentation
deriving DecidableEq, Repr

/-- The handler cascade of `main`, applied to the ancestor-class names
(method resolution order) of a raised exception.  Returns `none` when no
clause matches, i.e. the exception would escape `main`. -/
def mainHandle (mro : List String) : Option Presentation :=
  if mro.contains "SystemExit" then some .discarded
  else if mro.contains "IsoModderFatalException" then some .fatalMessage
  else if mro.contains "BaseException" then some .bugReport
  else none

/-! ## The body of `cli`: fetch, build, unlink, write (from
src/ubautoiso/__main__.py), with the builder's internals modelled from the
spec where the `isomodder` package is not in the repository sources. -/

/-- The parameters of the Python callback body of `cli` (as its body uses
them): `output`, `cache_dir`, `prompt`, `autoinstall_file`, `no_efi`,
`no_mbr`. -/
structure CliParams where
  output : String
  cacheDir : String
  prompt : Bool
  autoinstallFile : String
  noEfi : Bool
  noMbr : Bool
deriving DecidableEq, Repr

/-- The keyword arguments of the `AutoInstallBuilder(...)` constructor call
in `cli`. -/
structure BuilderConfig where
  sourceIso : String
  autoinstallYaml : String
  grubEntryStamp : String
  autoinstallPrompt : Bool
  supportsEfi : Bool
  supportsMbr : Bool
deriving DecidableEq, Repr

/-- The builder configuration `cli` constructs:
`AutoInstallBuilder(source_iso=iso_file, autoinstall_yaml=autoinstall_file,
grub_entry_stamp="paranoidNAS AutoInstall", autoinstall_prompt=prompt,
supports_efi=(not no_efi), supports_mbr=(not no_mbr))`. -/
def builderConfigOf (p : CliParams) (isoPath : String) : BuilderConfig :=
  { sourceIso := isoPath
    autoinstallYaml := p.autoinstallFile
    grubEntryStamp := "paranoidNAS AutoInstall"
    autoinstallPrompt := p.prompt
    supportsEfi := !p.noEfi
    supportsMbr := !p.noMbr }

/-- Failures of `AutoInstallBuilder.build` relevant here. -/
inductive BuildError where
  /-- Malformed or unsupported image layout (spec: `FormatFailure`). -/
  | formatFailure : BuildError
  /-- Both boot platforms disabled (spec: `NoBootEntryRemaining`, a
  `ConfigurationConflict`). -/
  | noBootEntryRemaining : BuildError
deriving DecidableEq, Repr

/-- Modelled from the spec: `AutoInstallBuilder.build` is in the
`isomodder` package, not in the repository sources.  Per spec section 4.3
the build is a linear state machine (seed injection, menu patching, boot
entry resolution); on an otherwise-valid input image the first two steps
succeed, and the boot-entry step fails with `NoBootEntryRemaining` when
both MBR and EFI support were disabled by configuration.  `imageValid`
abstracts whether the input image is otherwise valid. -/
def buildResult (imageValid : Bool) (cfg : BuilderConfig) : Except BuildError Unit :=
  if !imageValid then .error .formatFailure
  else if !cfg.supportsMbr && !cfg.supportsEfi then .error .noBootEntryRemaining
  else .ok ()

/-- Observable filesystem-affecting actions of the `cli` body, in program
order. -/
inductive CliEvent where
  /-- `fetcher.fetch(progress)` with the fetcher's release string. -/
  | fetch (release : String) : CliEvent
  /-- `builder.build()` returned successfully. -/
  | buildDone : CliEvent
  /-- `output.unlink()`. -/
  | unlink (path : String) : CliEvent
  /-- `iso_file.write_iso(output, progress)`. -/
  | writeIso (path : String) : CliEvent
deriving DecidableEq, Repr

/-- The body of `cli` as a trace-producing function: fetch the ISO, build
(an exception propagates and aborts the body), then, exactly as in the
source, `if output.exists(): output.unlink()` followed by
`iso_file.write_iso(output, progress)`.  `fs` is the set of existing paths;
the result carries the events performed and either the build error that
escaped or the final set of paths. -/
def cliBody (p : CliParams) (imageValid : Bool) (fs : List String) :
    List CliEvent × Except BuildError (List String) :=
  match buildResult imageValid (builderConfigOf p "iso_path") with
  | .error e => ([.fetch "20.04"], .error e)
  | .ok _ =>
      if fs.contains p.output then
        ([.fetch "20.04", .buildDone, .unlink p.output, .writeIso p.output],
          .ok (p.output :: fs.erase p.output))
      else
        ([.fetch "20.04", .buildDone, .writeIso p.output],
          .ok (p.output :: fs))

/-! ## Fetcher checksum gate (modelled from the spec)

`UbuntuServerIsoFetcher` lives in the `isomodder` package, which is not in
the repository sources, so its verification step is modelled from spec
section 4.1. -/

/-- Failures of `ImageFetcher.fetch` (spec: `FetchError` family). -/
inductive FetchError where
  /-- The target filename is absent from the checksum manifest. -/
  | manifestEntryMissing : FetchError
  /-- The computed digest of the downloaded file differs from the manifest
  value. -/
  | checksumMismatch : FetchError
deriving DecidableEq, Repr

/-- One slot of the fetch cache: a (possibly partial) file for a release. -/
structure CacheSlot where
  release : String
  content : List Nat
  /-- Whether the file has been finalized (renamed out of its partial
  name) after checksum success. -/
  complete : Bool
deriving DecidableEq, Repr

/-- Modelled from the spec: the cryptographic digest (SHA-256 in the
implementation, which is not in the repository sources) computed over the
full file, represented by a concrete byte fold. -/
def digest (bytes : List Nat) : Nat :=
  bytes.foldl (fun a b => (a * 257 + b % 256 + 1) % 2 ^ 256) 1

/-- Result of the post-download verification step: the propagated result
plus the cache contents afterwards. -/
structure FetchOutcome where
  result : Except FetchError String
  cache : List CacheSlot
deriving Repr

/-- Modelled from the spec: the tail of `UbuntuServerIsoFetcher.fetch`
(isomodder package, not in the repository sources).  After the stream
completes, computes the digest over the full file and compares it against
the manifest value `expected`; on mismatch, deletes the file and fails with
`ChecksumMismatch`; on success, atomically renames the partial file into
its final cache slot and returns its path. -/
def finalizeDownload (release : String) (expected : Nat)
    (downloaded : List Nat) (cache : List CacheSlot) : FetchOutcome :=
  if digest downloaded = expected then
    { result := .ok (release ++ ".iso")
      cache := cache.filter (fun s => s.release != release) ++
        [{ release := release, content := downloaded, complete := true }] }
  else
    { result := .error .checksumMismatch
      cache := cache.filter (fun s => s.release != release) }

/-! ## El Torito boot catalog (modelled from the spec)

`IsoFile`'s catalog editing lives in the `isomodder` package, not in the
repository sources; the catalog structure and `disableBootEntry` are
modelled from spec sections 3 and 4.2. -/

/-- Boot platform kinds of El Torito catalog entries. -/
inductive PlatformKind where
  | bios : PlatformKind
  | uefi : PlatformKind
deriving DecidableEq, Repr

/-- Modelled from the spec: the El Torito validation entry as its 16-bit
words — header word (header id and platform id bytes), identifier-string
words, the checksum field, and the trailing key word (0xAA55).  The
checksum field is chosen so that all catalog words sum to zero modulo
2^16. -/
structure ValidationEntry where
  headerWord : Nat
  idWords : List Nat
  checksum : Nat
  keyWord : Nat
deriving DecidableEq, Repr

/-- Modelled from the spec: a catalog section entry — platform kind,
presence flag (cleared so firmware skips the entry), starting LBA. -/
structure SectionEntry where
  platform : PlatformKind
  present : Bool
  startLba : Nat
deriving DecidableEq, Repr

/-- Modelled from the spec: the parsed El Torito boot catalog — the
validation entry followed by the section entries. -/
structure BootCatalog where
  validation : ValidationEntry
  sections : List SectionEntry
deriving DecidableEq, Repr

/-- Modelled from the spec: the 16-bit words of one section entry — the
boot-indicator word (0x88 = 136 when the entry is present, 0 once its
presence flag is cleared so firmware skips it) and the two words of the
starting LBA. -/
def sectionWords (e : SectionEntry) : List Nat :=
  [if e.present then 136 else 0, e.startLba % 65536, e.startLba / 65536 % 65536]

/-- All 16-bit words of the serialized catalog: the validation entry's
words followed by every section entry's words. -/
def catalogWords (c : BootCatalog) : List Nat :=
  c.validation.headerWord :: c.validation.idWords ++
    [c.validation.checksum, c.validation.keyWord] ++
    (c.sections.map sectionWords).flatten

/-- The El Torito zero-sum rule: all catalog 16-bit words sum to zero
modulo 2^16. -/
def checksumOk (c : BootCatalog) : Prop :=
  (catalogWords c).sum % 65536 = 0

instance (c : BootCatalog) : Decidable (checksumOk c) := by
  unfold checksumOk; infer_instance

/-- Failures of catalog editing relevant here. -/
inductive CatalogError where
  /-- No entry of the requested platform kind exists to disable. -/
  | bootEntryNotFound : CatalogError
deriving DecidableEq, Repr

/-- Clear the presence flag of a section entry when it matches the given
platform kind; other entries are untouched. -/
def clearFlag (k : PlatformKind) (e : SectionEntry) : SectionEntry :=
  if e.platform == k then { e with present := false } else e

/-- The number of present section entries of the given platform kind. -/
def presentCount (k : PlatformKind) (ss : List SectionEntry) : Nat :=
  ss.countP (fun e => e.platform == k && e.present)

/-- Modelled from the spec: `disableBootEntry(platformKind)` marks the
matching catalog sections as absent.  Each matching section entry is
retained in the catalog table — for checksum validity — with only its
presence flag cleared, and the validation checksum field is updated so the
16-bit-word-sum-to-zero invariant holds (spec section 4.2); fails with
`BootEntryNotFound` if no entry of that platform kind exists. -/
def disableBootEntry (k : PlatformKind) (c : BootCatalog) :
    Except CatalogError BootCatalog :=
  if c.sections.any (fun e => e.platform == k) then
    .ok { validation := { c.validation with
            checksum :=
              (c.validation.checksum + 136 * presentCount k c.sections) % 65536 },
          sections := c.sections.map (clearFlag k) }
  else .error .bootEntryNotFound

/-- Helper: clearing the presence flags of the matching sections removes
exactly 136 from the catalog word sum per present matching entry. -/
theorem sum_sectionWords_clearFlag (k : PlatformKind) (ss : List SectionEntry) :
    ((ss.map (clearFlag k)).map sectionWords).flatten.sum +
      136 * presentCount k ss =
    (ss.map sectionWords).flatten.sum := by
  induction ss with
  | nil => simp [presentCount]
  | cons e rest ih =>
    have hEntry : (sectionWords (clearFlag k e)).sum +
        (if (e.platform == k && e.present) = true then 136 else 0) =
        (sectionWords e).sum := by
      by_cases hk : (e.platform == k) = true
      · by_cases hp : e.present = true
        · simp [clearFlag, sectionWords, hk, hp]
          omega
        · simp [clearFlag, sectionWords, hk, hp]
      · simp [clearFlag, sectionWords, hk]
    simp only [List.map_cons, List.flatten_cons, List.sum_append, presentCount,
      List.countP_cons] at ih ⊢
    by_cases hpe : (e.platform == k && e.present) = true
    · rw [if_pos hpe] at hEntry
      rw [if_pos hpe]
      omega
    · rw [if_neg hpe] at hEntry
      rw [if_neg hpe]
      omega

/-! ## `get_default_cache_dir` (from src/ubautoiso/__main__.py)

The Python body is
`xdg_cache_home = Path(os.environ.get("XDG_CACHE_HOME",
f"{os.environ['HOME']}/.cache"))`, then `app_cache = xdg_cache_home /
"ubautoiso"`, `app_cache.mkdir(parents=True, exist_ok=True)`, `return
str(app_cache)`.  Note that the fallback argument of `os.environ.get` is
evaluated eagerly, so `os.environ["HOME"]` raises `KeyError` whenever
`HOME` is unset, even when `XDG_CACHE_HOME` is set. -/

/-- Python errors relevant to `get_default_cache_dir`. -/
inductive PyError where
  /-- `os.environ["HOME"]` with `HOME` unset. -/
  | keyError : PyError
deriving DecidableEq, Repr

/-- The environment variables `get_default_cache_dir` consults. -/
structure Env where
  xdgCacheHome : Option String
  home : Option String
deriving DecidableEq, Repr

/-- The proper ancestor directories of a slash-separated path, innermost
excluded (e.g. for `/home/u/.cache/ubautoiso`: `/home`, `/home/u`,
`/home/u/.cache`). -/
def ancestorsOf (p : String) : List String :=
  ((List.range (p.splitOn "/").length).drop 2).map
    (fun i => String.intercalate "/" ((p.splitOn "/").take i))

/-- `Path.mkdir(parents=True, exist_ok=True)`: afterwards the directory
and all of its ancestors exist, everything that existed before still
exists, and the call succeeds whether or not the directory already
existed. -/
def mkdirParents (p : String) (fs : List String) : List String :=
  p :: ancestorsOf p ++ fs

/-- The cache directory path the function derives when `HOME` is bound to
`h`: `XDG_CACHE_HOME` (or `$HOME/.cache` when unset) joined with
`ubautoiso`. -/
def defaultCacheDirPath (env : Env) (h : String) : String :=
  env.xdgCacheHome.getD (h ++ "/.cache") ++ "/ubautoiso"

/-- `get_default_cache_dir`, over an explicit environment and filesystem
(set of existing directory paths): returns the derived path and the
filesystem after `mkdir(parents=True, exist_ok=True)`, or raises
`KeyError` when `HOME` is unset. -/
def get_default_cache_dir (env : Env) (fs : List String) :
    Except PyError (String × List String) :=
  match env.home with
  | none => .error .keyError
  | some h => .ok (defaultCacheDirPath env h,
      mkdirParents (defaultCacheDirPath env h) fs)

/-! ## IsoImage serialization (modelled from the spec)

`IsoFile` lives in the `isomodder` package, not in the repository sources;
the staged-edit model and the `write` algorithm of spec section 4.2 are
modelled here: sequential deterministic extent allocation, sector-aligned
serialization with the final sector of each file padded to the fixed
2048-byte block size, and an explicit internal work schedule to express
that the output bytes do not depend on internal parallelism. -/

/-- ISO9660 logical block size, fixed at 2048. -/
def blockSize : Nat := 2048

/-- A file of the in-memory directory tree: normalized absolute path and
payload bytes. -/
structure FileEntry where
  path : String
  content : List Nat
deriving DecidableEq, Repr

/-- A staged edit: `replaceFile` marks an existing entry pending-rewrite,
`addFile` inserts a brand-new entry; extents are only assigned at write
time. -/
inductive StagedEdit where
  | replaceFile (path : String) (content : List Nat) : StagedEdit
  | addFile (path : String) (content : List Nat) : StagedEdit
deriving DecidableEq, Repr

/-- The loaded image: decoded directory tree plus staged edits. -/
structure IsoImage where
  files : List FileEntry
  staged : List StagedEdit
deriving DecidableEq, Repr

/-- Compute the final directory tree including staged replacements and
additions (spec write step 1). -/
def applyStaged (files : List FileEntry) : List StagedEdit → List FileEntry
  | [] => files
  | .replaceFile p c :: rest =>
      applyStaged
        (files.map fun f => if f.path == p then { path := p, content := c } else f)
        rest
  | .addFile p c :: rest =>
      applyStaged (files ++ [{ path := p, content := c }]) rest

/-- Number of logical blocks a payload of `len` bytes occupies. -/
def blocksNeeded (len : Nat) : Nat := (len + blockSize - 1) / blockSize

/-- Sequential extent allocation in deterministic (directory) order (spec
write step 2): each file gets the next free starting block. -/
def allocateExtents : List FileEntry → Nat → List (String × Nat)
  | [], _ => []
  | f :: rest, start =>
      (f.path, start) :: allocateExtents rest (start + blocksNeeded f.content.length)

/-- Split a payload into 2048-byte sectors, padding the final sector with
zero bytes.  The first argument is recursion fuel (the payload length
suffices, as every step consumes at least one byte). -/
def chunkSectorsGo : Nat → List Nat → List (List Nat)
  | 0, _ => []
  | _ + 1, [] => []
  | n + 1, c@(_ :: _) =>
      (c.take blockSize ++
          List.replicate (blockSize - (c.take blockSize).length) 0) ::
        chunkSectorsGo n (c.drop blockSize)

/-- The sectors of one file's payload. -/
def chunkSectors (c : List Nat) : List (List Nat) := chunkSectorsGo c.length c

/-- The 16-sector ISO9660 system area (zero-filled). -/
def systemAreaSectors : List (List Nat) :=
  List.replicate 16 (List.replicate blockSize 0)

/-- The rebuilt primary volume descriptor sector with the corrected volume
space size (spec write step 5): type code 1, the `CD001` identifier bytes,
version, volume size in blocks, zero-padded to one block. -/
def pvdSector (totalBlocks : Nat) : List Nat :=
  [1, 67, 68, 48, 48, 49, 1, totalBlocks] ++ List.replicate (blockSize - 8) 0

/-- The rebuilt path-table/directory-record sector referencing the newly
allocated extents (spec write step 3): for each file its starting block
and name length, zero-padded to one block. -/
def extentTableSector (files : List FileEntry) (dataStart : Nat) : List Nat :=
  let tbl := (allocateExtents files dataStart).foldr
    (fun pr acc => pr.2 :: pr.1.length :: acc) []
  tbl ++ List.replicate (blockSize - tbl.length) 0

/-- All sectors of the serialized image, in logical-block order: system
area, primary volume descriptor, extent table (starting the data area at
block 18), then every file's sectors in directory order. -/
def computeSectors (img : IsoImage) : List (List Nat) :=
  let files := applyStaged img.files img.staged
  let dataSectors := files.foldr (fun f acc => chunkSectors f.content ++ acc) []
  systemAreaSectors ++
    [pvdSector (18 + dataSectors.length), extentTableSector files 18] ++
    dataSectors

/-- `write_iso`: stream all sectors in logical-block order (spec write
step 6).  Returns the output bytes and the image afterwards (staged edits
committed by the write). -/
def write_iso (img : IsoImage) : List Nat × IsoImage :=
  ((computeSectors img).foldr (fun s acc => s ++ acc) [],
    { files := applyStaged img.files img.staged, staged := [] })

/-- `write_iso` under an internal parallel schedule: `sched` is the order
in which worker steps process sector indices; each step writes its sector
into that sector's slot of the output, and the final bytes are the
concatenated slots. -/
def writeScheduled (sched : List Nat) (img : IsoImage) : List Nat :=
  let secs := computeSectors img
  (sched.foldl (fun acc i => acc.set i (secs.getD i []))
      (List.replicate secs.length [])).foldr (fun s acc => s ++ acc) []

/-- Helper: the slot array after processing `sched` holds, at every index
that some step wrote, that index's sector, and elsewhere the initial
value. -/
theorem foldl_set_getElem? {α : Type} (secs : List α) (d : α)
    (sched : List Nat) (acc : List α) (j : Nat) :
    (sched.foldl (fun a i => a.set i (secs.getD i d)) acc)[j]? =
      if j ∈ sched ∧ j < acc.length then some (secs.getD j d) else acc[j]? := by
  induction sched generalizing acc with
  | nil => simp
  | cons i rest ih =>
    simp only [List.foldl_cons]
    rw [ih, List.length_set]
    by_cases hl : j < acc.length
    · by_cases hr : j ∈ rest
      · rw [if_pos ⟨hr, hl⟩, if_pos ⟨List.mem_cons_of_mem i hr, hl⟩]
      · rw [if_neg (fun hc => hr hc.1), List.getElem?_set]
        by_cases hij : i = j
        · subst hij
          rw [if_pos rfl, if_pos hl, if_pos ⟨List.mem_cons_self i rest, hl⟩]
        · have hne : ¬(j ∈ i :: rest ∧ j < acc.length) := fun hc =>
            (List.mem_cons.mp hc.1).elim (fun h => hij h.symm) hr
          rw [if_neg hij, if_neg hne]
    · have h1 : acc[j]? = none := List.getElem?_eq_none (Nat.le_of_not_lt hl)
      have h2 : (acc.set i (secs.getD i d))[j]? = none := by
        apply List.getElem?_eq_none
        simpa using Nat.le_of_not_lt hl
      rw [if_neg (fun hc => hl hc.2), if_neg (fun hc => hl hc.2), h1, h2]

/-- Helper: when the schedule covers every sector index, the assembled
slots equal the sector list itself, whatever the order of the schedule. -/
theorem foldl_set_covering {α : Type} (secs : List α) (d : α)
    (sched : List Nat) (hcov : ∀ i < secs.length, i ∈ sched) :
    sched.foldl (fun a i => a.set i (secs.getD i d))
      (List.replicate secs.length d) = secs := by
  apply List.ext_getElem?
  intro j
  rw [foldl_set_getElem?, List.length_replicate]
  by_cases hj : j < secs.length
  · simp [hcov j hj, hj, List.getElem?_eq_getElem hj]
  · have h1 : secs[j]? = none := List.getElem?_eq_none (Nat.le_of_not_lt hj)
    have h2 : (List.replicate secs.length d)[j]? = none := by
      apply List.getElem?_eq_none
      simpa using Nat.le_of_not_lt hj
    simp [hj, h1, h2]

end Ubautoiso

namespace Ubautoiso

/-! ## Theorems for C1, C2, C5, C10 -/

/-- C1: For every CLI invocation, the command accepts the three boolean
flags and forwards them into the build pipeline, with `autoinstall_prompt`
false exactly when the suppress-prompt flag is given.  In the code this
fails: the decorators declare the click parameter `no_prompt` (and
`release`) but the callback signature does not accept them, and the
callback instead names a parameter `prompt` that click never supplies, so
every invocation of the command raises `TypeError` before any builder is
constructed. -/
theorem cli_prompt_flag_not_forwarded :
    pythonKwCallOk cliDeclaredParams cliCallbackParams = false ∧
    cliDeclaredParams.contains "no_prompt" = true ∧
    cliCallbackParams.contains "no_prompt" = false ∧
    cliCallbackParams.contains "prompt" = true ∧
    cliDeclaredParams.contains "prompt" = false := by
  decide

/-- C2: For every release string supplied via `--release`, the fetch step
should use that release.  In the code this fails twice over: the callback
signature has no `release` parameter (so click's `release` keyword argument
makes every invocation raise `TypeError`), and the body constructs the
fetcher with the hard-coded literal `"20.04"` for any cache directory, so a
user-supplied release such as `"20.10"` is never forwarded. -/
theorem cli_release_not_forwarded :
    cliDeclaredParams.contains "release" = true ∧
    cliCallbackParams.contains "release" = false ∧
    pythonKwCallOk cliDeclaredParams cliCallbackParams = false ∧
    (∀ cacheDir : String, (cliFetcherConfig cacheDir).release = "20.04") ∧
    (cliFetcherConfig "/cache").release ≠ "20.10" := by
  refine ⟨by decide, by decide, by decide, fun _ => rfl, by decide⟩

/-- C5: Every failure raised by the fetch+build+write pipeline — which
signals failure by a propagated Python exception, never via `SystemExit` —
is classified by `main` into exactly one of two user-visible paths: the
operational-failure message exactly when it is an
`IsoModderFatalException`, and the unanticipated-bug report otherwise;
neither kind is discarded or allowed to escape. -/
theorem main_classifies_pipeline_failures (mro : List String)
    (hBase : mro.contains "BaseException" = true)
    (hNotExit : mro.contains "SystemExit" = false) :
    (mainHandle mro = some .fatalMessage ↔
      mro.contains "IsoModderFatalException" = true) ∧
    (mainHandle mro = some .bugReport ↔
      mro.contains "IsoModderFatalException" = false) ∧
    mainHandle mro ≠ some .discarded ∧
    mainHandle mro ≠ none := by
  unfold mainHandle
  rw [hNotExit, hBase]
  cases hFatal : mro.contains "IsoModderFatalException" <;> simp [hFatal]

/-- Witness for C5: a concrete `IsoModderFatalException` (ancestor chain
`IsoModderFatalException → Exception → BaseException`) is presented as the
operational failure message. -/
theorem main_classifies_pipeline_failures_witness :
    (mainHandle ["IsoModderFatalException", "Exception", "BaseException"] =
        some .fatalMessage ↔
      (["IsoModderFatalException", "Exception", "BaseException"] :
        List String).contains "IsoModderFatalException" = true) ∧
    (mainHandle ["IsoModderFatalException", "Exception", "BaseException"] =
        some .bugReport ↔
      (["IsoModderFatalException", "Exception", "BaseException"] :
        List String).contains "IsoModderFatalException" = false) ∧
    mainHandle ["IsoModderFatalException", "Exception", "BaseException"] ≠
      some .discarded ∧
    mainHandle ["IsoModderFatalException", "Exception", "BaseException"] ≠
      none :=
  main_classifies_pipeline_failures
    ["IsoModderFatalException", "Exception", "BaseException"]
    (by decide) (by decide)

/-- C10: `main` never lets any exception escape: every Python exception's
class descends from `BaseException`, so some clause always matches;
`SystemExit` (including click usage-error exits) is discarded,
`IsoModderFatalException` is only printed as the fatal message, and every
other exception is only printed as the bug report — `main` then returns
normally, so the process exit status does not reflect failure. -/
theorem main_never_raises (mro : List String)
    (hBase : mro.contains "BaseException" = true) :
    (mainHandle mro).isSome = true ∧
    (mro.contains "SystemExit" = true → mainHandle mro = some .discarded) ∧
    (mro.contains "SystemExit" = false →
      mro.contains "IsoModderFatalException" = true →
      mainHandle mro = some .fatalMessage) ∧
    (mro.contains "SystemExit" = false →
      mro.contains "IsoModderFatalException" = false →
      mainHandle mro = some .bugReport) := by
  unfold mainHandle
  cases hExit : mro.contains "SystemExit" <;>
    cases hFatal : mro.contains "IsoModderFatalException" <;>
      simp_all

/-- Witness for C10: the `SystemExit` raised by click's standalone command
wrapper (ancestor chain `SystemExit → BaseException`) is caught and
discarded, and `main` returns normally. -/
theorem main_never_raises_witness :
    (mainHandle ["SystemExit", "BaseException"]).isSome = true ∧
    ((["SystemExit", "BaseException"] : List String).contains "SystemExit" = true →
      mainHandle ["SystemExit", "BaseException"] = some .discarded) ∧
    ((["SystemExit", "BaseException"] : List String).contains "SystemExit" = false →
      (["SystemExit", "BaseException"] : List String).contains
          "IsoModderFatalException" = true →
      mainHandle ["SystemExit", "BaseException"] = some .fatalMessage) ∧
    ((["SystemExit", "BaseException"] : List String).contains "SystemExit" = false →
      (["SystemExit", "BaseException"] : List String).contains
          "IsoModderFatalException" = false →
      mainHandle ["SystemExit", "BaseException"] = some .bugReport) :=
  main_never_raises ["SystemExit", "BaseException"] (by decide)

/-- C4: For every otherwise-valid input image, a build configured with both
disable-MBR and disable-EFI fails with `NoBootEntryRemaining` before any
write of the output image occurs: the body of `cli` performs only the
fetch, `build()` raises, and neither the unlink of the output path nor
`write_iso` is ever reached. -/
theorem both_disabled_fails_before_write (p : CliParams) (fs : List String)
    (hMbr : p.noMbr = true) (hEfi : p.noEfi = true) :
    cliBody p true fs =
      ([CliEvent.fetch "20.04"], .error .noBootEntryRemaining) := by
  simp [cliBody, buildResult, builderConfigOf, hMbr, hEfi]

/-- Witness for C4: with `--no-mbr --no-efi` and an existing output file,
the body fails with `NoBootEntryRemaining` having performed only the
fetch. -/
theorem both_disabled_fails_before_write_witness :
    cliBody
        { output := "autoinstall.iso", cacheDir := "/cache", prompt := false,
          autoinstallFile := "user-data.yaml", noEfi := true, noMbr := true }
        true ["autoinstall.iso"] =
      ([CliEvent.fetch "20.04"], .error .noBootEntryRemaining) :=
  both_disabled_fails_before_write
    { output := "autoinstall.iso", cacheDir := "/cache", prompt := false,
      autoinstallFile := "user-data.yaml", noEfi := true, noMbr := true }
    ["autoinstall.iso"] rfl rfl

/-- C9: Whenever the output path already exists when the pipeline reaches
the write step (the build returned successfully), `cli` unlinks the
existing file and only then writes the new image: the trace is exactly
fetch, build, `unlink(output)`, `write_iso(output)`, and the final
filesystem holds the freshly written output in place of the old file. -/
theorem existing_output_unlinked_before_write (p : CliParams) (v : Bool)
    (fs : List String)
    (hBuild : buildResult v (builderConfigOf p "iso_path") = .ok ())
    (hExists : fs.contains p.output = true) :
    cliBody p v fs =
      ([CliEvent.fetch "20.04", CliEvent.buildDone, CliEvent.unlink p.output,
          CliEvent.writeIso p.output],
        .ok (p.output :: fs.erase p.output)) := by
  unfold cliBody
  rw [hBuild]
  simp_all

/-- Witness for C9: a successful default-configuration build against a
filesystem already holding `autoinstall.iso` unlinks it before writing. -/
theorem existing_output_unlinked_before_write_witness :
    cliBody
        { output := "autoinstall.iso", cacheDir := "/cache", prompt := true,
          autoinstallFile := "user-data.yaml", noEfi := false, noMbr := false }
        true ["autoinstall.iso", "other.txt"] =
      ([CliEvent.fetch "20.04", CliEvent.buildDone,
          CliEvent.unlink "autoinstall.iso", CliEvent.writeIso "autoinstall.iso"],
        .ok ["autoinstall.iso", "other.txt"]) :=
  existing_output_unlinked_before_write
    { output := "autoinstall.iso", cacheDir := "/cache", prompt := true,
      autoinstallFile := "user-data.yaml", noEfi := false, noMbr := false }
    true ["autoinstall.iso", "other.txt"] rfl rfl

/-- C3: For every fetch whose downloaded file's digest does not match the
manifest value, the verification step deletes the file and fails with
`ChecksumMismatch`: the propagated result is the error (so no path to a
corrupt file is ever returned) and the resulting cache holds no file —
complete or partial — for that release. -/
theorem checksum_mismatch_purges_cache (release : String) (expected : Nat)
    (downloaded : List Nat) (cache : List CacheSlot)
    (hMismatch : digest downloaded ≠ expected) :
    (finalizeDownload release expected downloaded cache).result =
      .error .checksumMismatch ∧
    (finalizeDownload release expected downloaded cache).cache.all
      (fun s => s.release != release) = true := by
  unfold finalizeDownload
  rw [if_neg hMismatch]
  refine ⟨rfl, ?_⟩
  simp only [List.all_eq_true, List.mem_filter]
  exact fun s hs => hs.2

/-- Witness for C3: a one-byte download whose digest misses the manifest
value is rejected and its release's slot is purged from the cache. -/
theorem checksum_mismatch_purges_cache_witness :
    (finalizeDownload "20.04" 0 [1]
        [{ release := "20.04", content := [9], complete := false }]).result =
      .error .checksumMismatch ∧
    (finalizeDownload "20.04" 0 [1]
        [{ release := "20.04", content := [9], complete := false }]).cache.all
      (fun s => s.release != "20.04") = true :=
  checksum_mismatch_purges_cache "20.04" 0 [1]
    [{ release := "20.04", content := [9], complete := false }] (by decide)

/-- C7: After every successful `disableBootEntry` call on a catalog whose
16-bit words sum to zero modulo 2^16, the zero-sum rule still holds over
all catalog words: every section entry is retained in the catalog (same
number of sections) with only the matching entries' presence flags
cleared, and the validation checksum field absorbs exactly the words the
cleared flags removed. -/
theorem disableBootEntry_preserves_checksum (k : PlatformKind)
    (c cNew : BootCatalog) (hSum : checksumOk c)
    (hOk : disableBootEntry k c = .ok cNew) :
    checksumOk cNew ∧
    cNew.sections = c.sections.map (clearFlag k) ∧
    cNew.sections.length = c.sections.length := by
  unfold disableBootEntry at hOk
  split at hOk
  · injection hOk with h
    subst h
    refine ⟨?_, rfl, by simp⟩
    unfold checksumOk catalogWords at hSum ⊢
    simp only [List.sum_cons, List.sum_append] at hSum ⊢
    have hsec := sum_sectionWords_clearFlag k c.sections
    omega
  · exact absurd hOk (by simp)

/-- Witness for C7: disabling the BIOS entry of a two-entry catalog whose
words sum to 65536 keeps the zero-sum rule over all catalog words and
retains both sections, the BIOS one with its presence flag cleared. -/
theorem disableBootEntry_preserves_checksum_witness :
    checksumOk
      { validation :=
          { headerWord := 1, idWords := [], checksum := 21494, keyWord := 43605 },
        sections := [⟨.bios, false, 100⟩, ⟨.uefi, true, 200⟩] } ∧
    ({ validation :=
          { headerWord := 1, idWords := [], checksum := 21494, keyWord := 43605 },
        sections := [⟨.bios, false, 100⟩, ⟨.uefi, true, 200⟩] } :
        BootCatalog).sections =
      ({ validation :=
            { headerWord := 1, idWords := [], checksum := 21358, keyWord := 43605 },
          sections := [⟨.bios, true, 100⟩, ⟨.uefi, true, 200⟩] } :
          BootCatalog).sections.map (clearFlag PlatformKind.bios) ∧
    ({ validation :=
          { headerWord := 1, idWords := [], checksum := 21494, keyWord := 43605 },
        sections := [⟨.bios, false, 100⟩, ⟨.uefi, true, 200⟩] } :
        BootCatalog).sections.length =
      ({ validation :=
            { headerWord := 1, idWords := [], checksum := 21358, keyWord := 43605 },
          sections := [⟨.bios, true, 100⟩, ⟨.uefi, true, 200⟩] } :
          BootCatalog).sections.length :=
  disableBootEntry_preserves_checksum PlatformKind.bios
    { validation :=
        { headerWord := 1, idWords := [], checksum := 21358, keyWord := 43605 },
      sections := [⟨.bios, true, 100⟩, ⟨.uefi, true, 200⟩] }
    { validation :=
        { headerWord := 1, idWords := [], checksum := 21494, keyWord := 43605 },
      sections := [⟨.bios, false, 100⟩, ⟨.uefi, true, 200⟩] }
    (by decide) rfl

/-- C8 counterexample: `get_default_cache_dir` does not always return:
when `HOME` is unset, `os.environ["HOME"]` inside the eagerly evaluated
fallback argument raises `KeyError`, even though `XDG_CACHE_HOME` is set
and would have been used. -/
theorem get_default_cache_dir_requires_home :
    get_default_cache_dir { xdgCacheHome := some "/xdg", home := none } [] =
      .error .keyError :=
  rfl

/-- C8 (amended): whenever `HOME` is set, `get_default_cache_dir` returns
the path derived from `XDG_CACHE_HOME` (or `$HOME/.cache` when unset)
joined with `ubautoiso`; that directory and all its ancestors exist in the
resulting filesystem, nothing that existed is removed, and the call
succeeds for every starting filesystem — in particular when the directory
already exists. -/
theorem get_default_cache_dir_creates_dir (env : Env) (fs : List String)
    (h : String) (hHome : env.home = some h) :
    get_default_cache_dir env fs =
      .ok (defaultCacheDirPath env h,
        mkdirParents (defaultCacheDirPath env h) fs) ∧
    (mkdirParents (defaultCacheDirPath env h) fs).contains
      (defaultCacheDirPath env h) = true ∧
    (ancestorsOf (defaultCacheDirPath env h)).all
      (fun q => (mkdirParents (defaultCacheDirPath env h) fs).contains q) =
      true ∧
    fs.all
      (fun q => (mkdirParents (defaultCacheDirPath env h) fs).contains q) =
      true := by
  refine ⟨?_, ?_, ?_, ?_⟩
  · unfold get_default_cache_dir
    rw [hHome]
  · simp [mkdirParents]
  · simp only [List.all_eq_true]
    intro q hq
    simp [mkdirParents, hq]
  · simp only [List.all_eq_true]
    intro q hq
    simp [mkdirParents, hq]

/-- Witness for C8 (amended): with `HOME=/home/u`, `XDG_CACHE_HOME` unset
and the cache directory already existing, the call still succeeds and the
directory exists afterwards. -/
theorem get_default_cache_dir_creates_dir_witness :
    get_default_cache_dir { xdgCacheHome := none, home := some "/home/u" }
        ["/home/u/.cache/ubautoiso"] =
      .ok (defaultCacheDirPath { xdgCacheHome := none, home := some "/home/u" }
          "/home/u",
        mkdirParents
          (defaultCacheDirPath { xdgCacheHome := none, home := some "/home/u" }
            "/home/u")
          ["/home/u/.cache/ubautoiso"]) ∧
    (mkdirParents
        (defaultCacheDirPath { xdgCacheHome := none, home := some "/home/u" }
          "/home/u")
        ["/home/u/.cache/ubautoiso"]).contains
      (defaultCacheDirPath { xdgCacheHome := none, home := some "/home/u" }
        "/home/u") = true ∧
    (ancestorsOf
        (defaultCacheDirPath { xdgCacheHome := none, home := some "/home/u" }
          "/home/u")).all
      (fun q =>
        (mkdirParents
            (defaultCacheDirPath
              { xdgCacheHome := none, home := some "/home/u" } "/home/u")
            ["/home/u/.cache/ubautoiso"]).contains q) = true ∧
    (["/home/u/.cache/ubautoiso"] : List String).all
      (fun q =>
        (mkdirParents
            (defaultCacheDirPath
              { xdgCacheHome := none, home := some "/home/u" } "/home/u")
            ["/home/u/.cache/ubautoiso"]).contains q) = true :=
  get_default_cache_dir_creates_dir
    { xdgCacheHome := none, home := some "/home/u" }
    ["/home/u/.cache/ubautoiso"] "/home/u" rfl

/-- C6: For every loaded image with no staged edits, calling `write_iso`
twice produces byte-identical output both times (a second write on the
state left by the first write yields the same bytes), and the output bytes
are independent of the internal schedule: any schedule that covers every
sector index produces exactly the sequentially streamed bytes. -/
theorem write_iso_deterministic (img : IsoImage) (sched : List Nat)
    (hNoEdits : img.staged = [])
    (hcov : ∀ i < (computeSectors img).length, i ∈ sched) :
    (write_iso (write_iso img).2).1 = (write_iso img).1 ∧
    writeScheduled sched img = (write_iso img).1 := by
  obtain ⟨files, staged⟩ := img
  simp only at hNoEdits
  subst hNoEdits
  refine ⟨rfl, ?_⟩
  simp only [writeScheduled, write_iso]
  rw [foldl_set_covering (computeSectors ⟨files, []⟩) [] sched hcov]

/-- Witness for C6: a one-file image with no staged edits, written twice,
yields identical bytes, and the reversed schedule over all 19 sectors
yields the same bytes as the sequential stream. -/
theorem write_iso_deterministic_witness :
    (write_iso
        (write_iso
            { files := [{ path := "/autoinstall/user-data", content := [1, 2, 3] }],
              staged := [] }).2).1 =
      (write_iso
          { files := [{ path := "/autoinstall/user-data", content := [1, 2, 3] }],
            staged := [] }).1 ∧
    writeScheduled (List.range 19).reverse
        { files := [{ path := "/autoinstall/user-data", content := [1, 2, 3] }],
          staged := [] } =
      (write_iso
          { files := [{ path := "/autoinstall/user-data", content := [1, 2, 3] }],
            staged := [] }).1 :=
  write_iso_deterministic
    { files := [{ path := "/autoinstall/user-data", content := [1, 2, 3] }],
      staged := [] }
    (List.range 19).reverse rfl (by decide)

end Ubautoiso
